import Mathlib

/-!
Shallow embedding of `src/license_logger.py` (STOVE License Logger).

The relational state is modelled as lists of rows, one list per table created
by `init_db`.  SQL statements executed by the endpoints are translated to pure
functions on this state; `SERIAL` primary keys are modelled by explicit
`next_user_id` / `next_license_id` counters, timestamps by `Int` (the driver
clock value `now` is a parameter of each request, mirroring `datetime.now()`
and `CURRENT_TIMESTAMP`).  A request transaction is a pure state transformer
whose result is only published at `conn.commit()`; `conn.rollback()` returns
the committed state unchanged.
-/

/-- Row of the `users` table (`id SERIAL`, `user_id TEXT UNIQUE NOT NULL`). -/
structure UserRow where
  id : Nat
  user_id : String
  deriving Repr, DecidableEq

/-- Row of the `licenses` table. -/
structure LicenseRow where
  id : Nat
  license_key : String
  status : String
  type : String
  expires_at : Int
  max_devices : Nat
  deriving Repr, DecidableEq

/-- Row of the `user_licenses` association table. -/
structure UserLicenseRow where
  user_id : Nat
  license_id : Nat
  deriving Repr, DecidableEq

/-- Row of the `device_activations` table. -/
structure DeviceActivationRow where
  license_id : Nat
  user_id : Nat
  device_id : String
  device_name : String
  last_active : Int
  is_active : Bool
  deriving Repr, DecidableEq

/-- Row of the `license_activity` table. -/
structure ActivityRow where
  license_id : Nat
  user_id : Nat
  action : String
  status : String
  ip_address : String
  device_info : String
  created_at : Int
  deriving Repr, DecidableEq

/-- Committed database state: the five relations created by `init_db`,
plus the `SERIAL` counters backing `users.id` and `licenses.id`. -/
structure DBState where
  users : List UserRow
  licenses : List LicenseRow
  user_licenses : List UserLicenseRow
  device_activations : List DeviceActivationRow
  license_activity : List ActivityRow
  next_user_id : Nat
  next_license_id : Nat
  deriving Repr, DecidableEq

/-- State right after `init_db` on a fresh database: all tables empty,
`SERIAL` counters at 1. -/
def emptyDB : DBState := ⟨[], [], [], [], [], 1, 1⟩

/-- Names of the tables whose `CREATE TABLE IF NOT EXISTS` statements appear
in `init_db`.  Note that neither `license_stats` nor `license_logs` is among
them, although several read endpoints query those relations. -/
def init_db_tables : List String :=
  ["users", "licenses", "user_licenses", "license_activity", "device_activations"]

/-- Executing a statement against a named relation: succeeds only when the
relation exists in the schema, otherwise raises (modelled as `Except.error`
with the driver's message). -/
def queryTable (tables : List String) (name : String) : Except (Nat × String) Unit :=
  if tables.contains name then Except.ok ()
  else Except.error (500, "relation " ++ name ++ " does not exist")

/-- Python `dict.get(key, default)` on the parsed `device_info` object. -/
def dictGetD (kvs : List (String × String)) (key dflt : String) : String :=
  match kvs.find? (fun kv => kv.1 == key) with
  | some kv => kv.2
  | none => dflt

/-- Opaque serialization standing for `json.dumps(device_info)`. -/
def json_dumps (kvs : List (String × String)) : String :=
  String.intercalate "," (kvs.map (fun kv => kv.1 ++ ":" ++ kv.2))

/-- Body of a `POST /api/verify-license` request.  `license_key` and
`user_id` are `Option` because `data.get(...)` yields `None` when the field
is absent; Python's `not x` treats `None` and the empty string alike, which
the embedding mirrors via `Option.getD ""`. -/
structure VerifyRequest where
  license_key : Option String
  user_id : Option String
  device_info : List (String × String)
  deriving Repr, DecidableEq

/-- The `INSERT INTO users ... ON CONFLICT (user_id) DO UPDATE SET user_id =
EXCLUDED.user_id RETURNING id` upsert: fetches the existing row's id, or
inserts a fresh row with the next serial id. -/
def upsertUser (uid : String) (s : DBState) : Nat × DBState :=
  match s.users.find? (fun r => r.user_id == uid) with
  | some r => (r.id, s)
  | none =>
      (s.next_user_id,
       { s with users := s.users ++ [⟨s.next_user_id, uid⟩],
                next_user_id := s.next_user_id + 1 })

/-- The `INSERT INTO licenses ... ON CONFLICT (license_key) DO UPDATE SET
status = EXCLUDED.status, type = EXCLUDED.type, expires_at =
EXCLUDED.expires_at RETURNING id, status, type, expires_at, max_devices`
upsert.  On conflict the stored row's status/type/expiry are overwritten
with the supplied values (`max_devices` keeps its stored value); the
returned row reflects the post-update values. -/
def upsertLicense (key status ty : String) (expires : Int) (s : DBState) :
    LicenseRow × DBState :=
  match s.licenses.find? (fun r => r.license_key == key) with
  | some r =>
      ({ r with status := status, type := ty, expires_at := expires },
       { s with licenses := s.licenses.map (fun q =>
           if q.license_key == key then
             { q with status := status, type := ty, expires_at := expires }
           else q) })
  | none =>
      let r : LicenseRow := ⟨s.next_license_id, key, status, ty, expires, 1⟩
      (r, { s with licenses := s.licenses ++ [r],
                   next_license_id := s.next_license_id + 1 })

/-- The `INSERT INTO user_licenses ... ON CONFLICT (user_id, license_id)
DO NOTHING` statement. -/
def linkUserLicense (u l : Nat) (s : DBState) : DBState :=
  if s.user_licenses.any (fun r => r.user_id == u && r.license_id == l) then s
  else { s with user_licenses := s.user_licenses ++ [⟨u, l⟩] }

/-- The device registration block: skipped entirely when `device_id` is
empty (`if device_id:`); otherwise the `INSERT INTO device_activations ...
ON CONFLICT (license_id, device_id) DO UPDATE SET last_active =
CURRENT_TIMESTAMP, is_active = true` upsert. -/
def registerDevice (lid uid : Nat) (did dname : String) (now : Int)
    (s : DBState) : DBState :=
  if did == "" then s
  else if s.device_activations.any
      (fun r => r.license_id == lid && r.device_id == did) then
    { s with device_activations := s.device_activations.map (fun r =>
        if r.license_id == lid && r.device_id == did then
          { r with last_active := now, is_active := true }
        else r) }
  else
    { s with device_activations :=
        s.device_activations ++ [⟨lid, uid, did, dname, now, true⟩] }

/-- The `INSERT INTO license_activity (license_id, user_id, action, status,
ip_address, device_info)` append; `created_at` defaults to
`CURRENT_TIMESTAMP`. -/
def logActivity (lid uid : Nat) (action status ip dinfo : String)
    (now : Int) (s : DBState) : DBState :=
  { s with license_activity :=
      s.license_activity ++ [⟨lid, uid, action, status, ip, dinfo, now⟩] }

/-- The `SELECT COUNT(*) ... FROM device_activations WHERE license_id = %s
AND is_active = true` aggregate. -/
def active_devices (lid : Nat) (s : DBState) : Nat :=
  (s.device_activations.filter
    (fun r => r.license_id == lid && r.is_active)).length

/-- Result serialized by `verify_license`: `ok` is the `jsonify` body with
`valid: True` (HTTP 200); `err code message` is one of the
`valid: False` / `error` bodies with its HTTP status code. -/
inductive VerifyResult
  | ok (type status : String) (expires_at : Int) (days_remaining : Int)
       (active_devices : Nat) (max_devices : Nat)
  | err (code : Nat) (message : String)
  deriving Repr, DecidableEq

/-- The `valid` field of the serialized response body. -/
def VerifyResult.valid : VerifyResult → Bool
  | .ok _ _ _ _ _ _ => true
  | .err _ _ => false

/-- The HTTP status code of the response (`jsonify(...)` alone is 200). -/
def VerifyResult.httpCode : VerifyResult → Nat
  | .ok _ _ _ _ _ _ => 200
  | .err c _ => c

/-- The `type` field of a success body. -/
def VerifyResult.type_field : VerifyResult → Option String
  | .ok t _ _ _ _ _ => some t
  | .err _ _ => none

/-- The `status` field of a success body. -/
def VerifyResult.status_field : VerifyResult → Option String
  | .ok _ st _ _ _ _ => some st
  | .err _ _ => none

/-- The `expires_at` field of a success body. -/
def VerifyResult.expires_field : VerifyResult → Option Int
  | .ok _ _ e _ _ _ => some e
  | .err _ _ => none

/-- The `days_remaining` field of a success body. -/
def VerifyResult.days_field : VerifyResult → Option Int
  | .ok _ _ _ d _ _ => some d
  | .err _ _ => none

/-- The `active_devices` field of a success body. -/
def VerifyResult.devices_field : VerifyResult → Option Nat
  | .ok _ _ _ _ a _ => some a
  | .err _ _ => none

/-- An open database transaction: the committed state it started from and
the connection's uncommitted working view. -/
structure Txn where
  committed : DBState
  view : DBState

/-- Discard the working view (`conn.rollback()`). -/
def txnRollback (t : Txn) : DBState := t.committed

/-- Publish the working view (`conn.commit()`). -/
def txnCommit (t : Txn) : DBState := t.view

/-- Working view of the validation transaction after its first `k` storage
statements (in source order: user upsert, license upsert, user-license link,
device registration, activity insert); `k ≥ 5` is the fully executed
transaction. -/
def txnView (lk uid did dname dj ip : String) (now : Int) (s : DBState)
    (k : Nat) : DBState :=
  let u := upsertUser uid s
  let l := upsertLicense lk "active" "premium" (now + 30 * 86400) u.2
  let s3 := linkUserLicense u.1 l.1.id l.2
  let s4 := registerDevice l.1.id u.1 did dname now s3
  let s5 := logActivity l.1.id u.1 "validation" "success" ip dj now s4
  match k with
  | 0 => s
  | 1 => u.2
  | 2 => l.2
  | 3 => s3
  | 4 => s4
  | _ + 5 => s5

/-- Fully executed validation transaction followed by `conn.commit()`:
returns the serialized success body and the newly committed state.
`now` is the clock value used for `datetime.now() + timedelta(days=30)`
and for `CURRENT_TIMESTAMP`; `now2` is the later `datetime.now()` read
used by the `days_remaining` computation, whose `timedelta.days` floor
is `Int.fdiv` by the seconds of one day. -/
def validationTxn (lk uid did dname dj ip : String) (now now2 : Int)
    (s : DBState) : VerifyResult × DBState :=
  let u := upsertUser uid s
  let l := upsertLicense lk "active" "premium" (now + 30 * 86400) u.2
  let s3 := linkUserLicense u.1 l.1.id l.2
  let s4 := registerDevice l.1.id u.1 did dname now s3
  let s5 := logActivity l.1.id u.1 "validation" "success" ip dj now s4
  let ad := active_devices l.1.id s5
  (.ok l.1.type l.1.status l.1.expires_at
       (Int.fdiv (l.1.expires_at - now2) 86400) ad l.1.max_devices,
   txnCommit ⟨s, s5⟩)

/-- The `POST /api/verify-license` handler under the `require_api_key`
decorator.  `cfg` is the configured `API_KEY`, `hk` the request's
`X-API-Key` header (absent = `none`).  `failAt = some k` models a storage
error raised at the `k`-th statement of the transaction: the `except`
branch calls `conn.rollback()` and returns the generic 500 body.  The
header check and the required-field check run before any storage access. -/
def verify_license (cfg : String) (hk : Option String) (req : VerifyRequest)
    (ip : String) (now now2 : Int) (failAt : Option Nat) (s : DBState) :
    VerifyResult × DBState :=
  if hk ≠ some cfg then (.err 401 "Unauthorized", s)
  else
    let lk := req.license_key.getD ""
    let uid := req.user_id.getD ""
    let did := dictGetD req.device_info "device_id" ""
    let dname := dictGetD req.device_info "device_name" ""
    let dj := json_dumps req.device_info
    if lk == "" || uid == "" then
      (.err 400 "License key and user ID are required", s)
    else
      match failAt with
      | some k =>
          (.err 500 "Database error occurred",
           txnRollback ⟨s, txnView lk uid did dname dj ip now s k⟩)
      | none => validationTxn lk uid did dname dj ip now now2 s

/-- Row shape produced by the `SELECT la.created_at, la.action, la.status,
la.ip_address, la.device_info, u.user_id, u.email, u.name FROM
license_activity la JOIN licenses l ... JOIN users u ...` query of
`get_license_activity` (profile fields other than `user_id` are `NULL`
for rows this service creates and are omitted). -/
structure ActivityView where
  created_at : Int
  action : String
  status : String
  ip_address : String
  device_info : String
  user_id : String
  deriving Repr, DecidableEq

/-- Inner join of one `license_activity` row against `licenses` (on
`la.license_id = l.id` with `l.license_key = key`) and `users` (on
`la.user_id = u.id`): the row survives exactly when both partners exist. -/
def joinRow (key : String) (s : DBState) (a : ActivityRow) : Option ActivityView :=
  match s.licenses.find? (fun l => l.id == a.license_id && l.license_key == key),
        s.users.find? (fun u => u.id == a.user_id) with
  | some _, some u =>
      some ⟨a.created_at, a.action, a.status, a.ip_address, a.device_info, u.user_id⟩
  | _, _ => none

/-- The joined, unsorted result set of the activity query for one key. -/
def activityJoin (key : String) (s : DBState) : List ActivityView :=
  s.license_activity.filterMap (joinRow key s)

/-- Insertion step of the `ORDER BY la.created_at DESC` sort. -/
def insertDesc (x : ActivityView) : List ActivityView → List ActivityView
  | [] => [x]
  | y :: ys =>
      if y.created_at ≤ x.created_at then x :: y :: ys else y :: insertDesc x ys

/-- Sort a result set by `created_at` descending (insertion sort). -/
def sortDesc (l : List ActivityView) : List ActivityView :=
  l.foldr insertDesc []

/-- The `GET /api/license/activity` handler under `require_api_key`:
header check, required-parameter check, then the join query with
`ORDER BY la.created_at DESC LIMIT 50`. -/
def get_license_activity (cfg : String) (hk : Option String)
    (key : Option String) (s : DBState) :
    Except (Nat × String) (List ActivityView) :=
  if hk ≠ some cfg then Except.error (401, "Unauthorized")
  else if key.getD "" == "" then Except.error (400, "License key is required")
  else Except.ok ((sortDesc (activityJoin (key.getD "") s)).take 50)

/-- The `GET /api/stats/license/license_key` handler under
`require_api_key`.  Its first statement is `SELECT * FROM license_stats
WHERE license_key = %s` and its second `SELECT * FROM license_logs ...`;
each raises unless its relation exists in the schema, and the `except`
branch serializes the raised error with HTTP 500.  Under the schema that
`init_db` creates the first statement always raises, so the handler's
success continuation (building the stats body) is unreachable and is
represented by `Unit`. -/
def get_license_stats (cfg : String) (hk : Option String)
    (tables : List String) (license_key : String) (s : DBState) :
    Except (Nat × String) Unit :=
  if hk ≠ some cfg then Except.error (401, "Unauthorized")
  else do
    queryTable tables "license_stats"
    queryTable tables "license_logs"
    Except.ok ()

/-- Key list of `device_activations`: the columns of its
`UNIQUE(license_id, device_id)` constraint, row by row. -/
def deviceKeys (s : DBState) : List (Nat × String) :=
  s.device_activations.map (fun r => (r.license_id, r.device_id))

/-- Invariant enforced by `UNIQUE(license_id, device_id)`: no two
`device_activations` rows share a (license, device) pair. -/
def DeviceUnique (s : DBState) : Prop := (deviceKeys s).Nodup

/-- Number of distinct device ids with `is_active = true` for a license. -/
def distinct_active_device_ids (lid : Nat) (s : DBState) : Nat :=
  ((s.device_activations.filter
      (fun r => r.license_id == lid && r.is_active)).map
    (fun r => r.device_id)).dedup.length

/-- Every ledger row carries `action = validation` and `status = success`:
the literals of the single `INSERT INTO license_activity` statement. -/
def LedgerOK (s : DBState) : Prop :=
  ∀ a ∈ s.license_activity, a.action = "validation" ∧ a.status = "success"

/-- Internal identity the `licenses` upsert resolves a key to (the stored
row's `id`), when the key is present. -/
def licenseIdOf (key : String) (s : DBState) : Option Nat :=
  (s.licenses.find? (fun r => r.license_key == key)).map (fun r => r.id)

/-- Concrete committed state holding one stored license whose `status` is
`expired` and whose `expires_at` lies in the past of the clock values used
in the counterexample evaluations. -/
def expiredState : DBState :=
  ⟨[], [⟨1, "LIC-1", "expired", "premium", 0, 1⟩], [], [], [], 1, 2⟩

/-- Action of the device-registration statement on the
`device_activations` relation alone (the statement touches no other
relation). -/
def deviceUpsertList (lid uid : Nat) (did dname : String) (now : Int)
    (l : List DeviceActivationRow) : List DeviceActivationRow :=
  if did == "" then l
  else if l.any (fun r => r.license_id == lid && r.device_id == did) then
    l.map (fun r =>
      if r.license_id == lid && r.device_id == did then
        { r with last_active := now, is_active := true }
      else r)
  else l ++ [⟨lid, uid, did, dname, now, true⟩]

/-- Concrete committed state after one validation of `LIC-1` by `u1` from
device `dev1`: one user, one license, one link, one active device row and
one ledger row. -/
def oneDeviceState : DBState :=
  ⟨[⟨1, "u1"⟩], [⟨1, "LIC-1", "active", "premium", 2592100, 1⟩], [⟨1, 1⟩],
   [⟨1, 1, "dev1", "PC", 100, true⟩],
   [⟨1, 1, "validation", "success", "1.2.3.4", "device_id:dev1", 100⟩], 2, 2⟩

theorem upsertUser_frame (uid : String) (s : DBState) :
    (upsertUser uid s).2.licenses = s.licenses ∧
    (upsertUser uid s).2.user_licenses = s.user_licenses ∧
    (upsertUser uid s).2.device_activations = s.device_activations ∧
    (upsertUser uid s).2.license_activity = s.license_activity := by
  unfold upsertUser
  cases s.users.find? (fun r => r.user_id == uid) <;> exact ⟨rfl, rfl, rfl, rfl⟩

theorem upsertLicense_frame (key st ty : String) (e : Int) (s : DBState) :
    (upsertLicense key st ty e s).2.users = s.users ∧
    (upsertLicense key st ty e s).2.user_licenses = s.user_licenses ∧
    (upsertLicense key st ty e s).2.device_activations = s.device_activations ∧
    (upsertLicense key st ty e s).2.license_activity = s.license_activity := by
  unfold upsertLicense
  cases s.licenses.find? (fun r => r.license_key == key) <;> exact ⟨rfl, rfl, rfl, rfl⟩

theorem linkUserLicense_frame (u l : Nat) (s : DBState) :
    (linkUserLicense u l s).users = s.users ∧
    (linkUserLicense u l s).licenses = s.licenses ∧
    (linkUserLicense u l s).device_activations = s.device_activations ∧
    (linkUserLicense u l s).license_activity = s.license_activity := by
  unfold linkUserLicense
  split <;> exact ⟨rfl, rfl, rfl, rfl⟩

theorem registerDevice_frame (lid uid : Nat) (did dname : String) (now : Int)
    (s : DBState) :
    (registerDevice lid uid did dname now s).users = s.users ∧
    (registerDevice lid uid did dname now s).licenses = s.licenses ∧
    (registerDevice lid uid did dname now s).user_licenses = s.user_licenses ∧
    (registerDevice lid uid did dname now s).license_activity = s.license_activity := by
  unfold registerDevice
  split
  · exact ⟨rfl, rfl, rfl, rfl⟩
  · split <;> exact ⟨rfl, rfl, rfl, rfl⟩

theorem logActivity_frame (lid uid : Nat) (action status ip dinfo : String)
    (now : Int) (s : DBState) :
    (logActivity lid uid action status ip dinfo now s).users = s.users ∧
    (logActivity lid uid action status ip dinfo now s).licenses = s.licenses ∧
    (logActivity lid uid action status ip dinfo now s).user_licenses = s.user_licenses ∧
    (logActivity lid uid action status ip dinfo now s).device_activations =
      s.device_activations := ⟨rfl, rfl, rfl, rfl⟩

theorem find?_map_pres {α : Type} (g : α → α) (p : α → Bool)
    (h : ∀ x, p (g x) = p x) (l : List α) :
    (l.map g).find? p = (l.find? p).map g := by
  induction l with
  | nil => rfl
  | cons a t ih =>
      simp only [List.map_cons]
      cases hpa : p a with
      | true =>
          rw [List.find?_cons_of_pos _ (by rw [h a]; exact hpa),
              List.find?_cons_of_pos _ hpa, Option.map_some']
      | false =>
          rw [List.find?_cons_of_neg _ (by simp [h a, hpa]),
              List.find?_cons_of_neg _ (by simp [hpa]), ih]

theorem find?_append_single {α : Type} (p : α → Bool) (l : List α) (x : α)
    (h : l.find? p = none) (hx : p x = true) : (l ++ [x]).find? p = some x := by
  rw [List.find?_append, h, List.find?_cons_of_pos _ hx]
  rfl

/-- After the license upsert, looking the key up again lands on exactly the
row the upsert returned. -/
theorem upsertLicense_find?_post (key st ty : String) (e : Int) (s : DBState) :
    (upsertLicense key st ty e s).2.licenses.find? (fun r => r.license_key == key) =
      some (upsertLicense key st ty e s).1 := by
  unfold upsertLicense
  cases hf : s.licenses.find? (fun r => r.license_key == key) with
  | none =>
      simp only
      exact find?_append_single _ _ _ hf (by simp)
  | some r =>
      simp only
      rw [find?_map_pres _ _ ?pres, hf, Option.map_some']
      case pres =>
        intro x
        by_cases hx : (x.license_key == key) = true
        · simp [hx]
        · simp [hx, if_neg]
      have hr := List.find?_some hf
      simp [hr]

/-- Field values of the row returned by the license upsert. -/
theorem upsertLicense_ret (key st ty : String) (e : Int) (s : DBState) :
    (upsertLicense key st ty e s).1.license_key = key ∧
    (upsertLicense key st ty e s).1.status = st ∧
    (upsertLicense key st ty e s).1.type = ty ∧
    (upsertLicense key st ty e s).1.expires_at = e := by
  refine ⟨?_, ?_, ?_, ?_⟩
  · have hp := List.find?_some (upsertLicense_find?_post key st ty e s)
    simpa using hp
  all_goals
    unfold upsertLicense
    cases s.licenses.find? (fun r => r.license_key == key) <;> rfl

/-- When the key is already stored, the upsert resolves to the stored
row's id. -/
theorem upsertLicense_existing_id (key st ty : String) (e : Int) (s : DBState)
    (r0 : LicenseRow)
    (hf : s.licenses.find? (fun r => r.license_key == key) = some r0) :
    (upsertLicense key st ty e s).1.id = r0.id := by
  unfold upsertLicense
  rw [hf]

/-- The user upsert returns the id of a `users` row of the resulting state
whose `user_id` is the requested one. -/
theorem upsertUser_post (uid : String) (s : DBState) :
    ∃ r ∈ (upsertUser uid s).2.users,
      r.id = (upsertUser uid s).1 ∧ r.user_id = uid := by
  unfold upsertUser
  cases hf : s.users.find? (fun r => r.user_id == uid) with
  | none =>
      refine ⟨⟨s.next_user_id, uid⟩, ?_, rfl, rfl⟩
      simp
  | some r =>
      exact ⟨r, List.mem_of_find?_eq_some hf, rfl,
        by simpa using List.find?_some hf⟩

/-- C6 — License resolution is idempotent: resolving the same
`license_key` twice returns the same internal `id` both times (for any
default field values supplied), the second resolution inserts no duplicate
row, and after the first resolution the key maps to that identity.  The
upsert is a total function of the state — a second resolution of an
existing key returns the stored row instead of raising a duplicate-key
error. -/
theorem resolveLicense_idempotent (key st ty st' ty' : String) (e e' : Int)
    (s : DBState) :
    (upsertLicense key st' ty' e' (upsertLicense key st ty e s).2).1.id =
      (upsertLicense key st ty e s).1.id ∧
    (upsertLicense key st' ty' e' (upsertLicense key st ty e s).2).2.licenses.length =
      (upsertLicense key st ty e s).2.licenses.length ∧
    licenseIdOf key (upsertLicense key st ty e s).2 =
      some (upsertLicense key st ty e s).1.id := by
  have h := upsertLicense_find?_post key st ty e s
  refine ⟨?_, ?_, ?_⟩
  · exact upsertLicense_existing_id key st' ty' e' _ _ h
  · conv_lhs => rw [upsertLicense, h]
    simp
  · rw [licenseIdOf, h, Option.map_some']

/-- C8 — Requests whose `X-API-Key` header does not match the configured
key are rejected with 401 Unauthorized by the `require_api_key` decorator
before any handler logic runs: the validation endpoint returns the
unchanged state, and the read endpoints return the 401 body. -/
theorem api_key_mismatch_rejected (cfg : String) (hk : Option String)
    (req : VerifyRequest) (ip : String) (now now2 : Int) (failAt : Option Nat)
    (key : Option String) (tables : List String) (lk : String) (s : DBState)
    (h : hk ≠ some cfg) :
    verify_license cfg hk req ip now now2 failAt s =
      (VerifyResult.err 401 "Unauthorized", s) ∧
    get_license_activity cfg hk key s = Except.error (401, "Unauthorized") ∧
    get_license_stats cfg hk tables lk s = Except.error (401, "Unauthorized") := by
  refine ⟨?_, ?_, ?_⟩ <;>
    simp only [verify_license, get_license_activity, get_license_stats, if_pos h]

/-- Witness for `api_key_mismatch_rejected` at a concrete mismatched header. -/
theorem api_key_mismatch_rejected_witness :
    verify_license "STOVE_ADMIN_2024_SECRET" (some "WRONG")
        ⟨some "LIC-1", some "u1", []⟩ "1.2.3.4" 100 100 none emptyDB =
      (VerifyResult.err 401 "Unauthorized", emptyDB) ∧
    get_license_activity "STOVE_ADMIN_2024_SECRET" (some "WRONG")
        (some "LIC-1") emptyDB = Except.error (401, "Unauthorized") ∧
    get_license_stats "STOVE_ADMIN_2024_SECRET" (some "WRONG")
        init_db_tables "LIC-1" emptyDB = Except.error (401, "Unauthorized") :=
  api_key_mismatch_rejected "STOVE_ADMIN_2024_SECRET" (some "WRONG")
    ⟨some "LIC-1", some "u1", []⟩ "1.2.3.4" 100 100 none
    (some "LIC-1") init_db_tables "LIC-1" emptyDB (by decide)

/-- C5 — A validation request whose `license_key` or `user_id` is missing
(`None`) or empty is rejected with the 400 body before any storage access:
the response has `valid: False`, and the committed state — in particular
the activity ledger — is unchanged. -/
theorem verify_license_malformed_rejected (cfg : String) (req : VerifyRequest)
    (ip : String) (now now2 : Int) (failAt : Option Nat) (s : DBState)
    (h : req.license_key.getD "" = "" ∨ req.user_id.getD "" = "") :
    (verify_license cfg (some cfg) req ip now now2 failAt s).1 =
      VerifyResult.err 400 "License key and user ID are required" ∧
    (verify_license cfg (some cfg) req ip now now2 failAt s).1.valid = false ∧
    (verify_license cfg (some cfg) req ip now now2 failAt s).2 = s := by
  have hcond : (req.license_key.getD "" == "" || req.user_id.getD "" == "") = true := by
    rcases h with h | h <;> simp [h]
  refine ⟨?_, ?_, ?_⟩ <;> simp [verify_license, hcond, VerifyResult.valid]

/-- Witness for `verify_license_malformed_rejected`: a request missing its
`license_key` field. -/
theorem verify_license_malformed_rejected_witness :
    (verify_license "K" (some "K") ⟨none, some "u1", []⟩ "1.2.3.4" 100 100 none
        emptyDB).1 =
      VerifyResult.err 400 "License key and user ID are required" ∧
    (verify_license "K" (some "K") ⟨none, some "u1", []⟩ "1.2.3.4" 100 100 none
        emptyDB).1.valid = false ∧
    (verify_license "K" (some "K") ⟨none, some "u1", []⟩ "1.2.3.4" 100 100 none
        emptyDB).2 = emptyDB :=
  verify_license_malformed_rejected "K" ⟨none, some "u1", []⟩ "1.2.3.4" 100 100
    none emptyDB (Or.inl rfl)

/-- C4 — A storage error raised at any statement of the validation
transaction before `conn.commit()` makes the handler call `conn.rollback()`
and answer with the generic 500 body: the committed state is exactly the
pre-request state, so no partial user, license, link, device, or activity
row survives, and the error is not swallowed. -/
theorem verify_license_storage_error_rollback (cfg : String)
    (req : VerifyRequest) (ip : String) (now now2 : Int) (k : Nat)
    (s : DBState)
    (hlk : req.license_key.getD "" ≠ "") (huid : req.user_id.getD "" ≠ "") :
    (verify_license cfg (some cfg) req ip now now2 (some k) s).1 =
      VerifyResult.err 500 "Database error occurred" ∧
    (verify_license cfg (some cfg) req ip now now2 (some k) s).1.httpCode = 500 ∧
    (verify_license cfg (some cfg) req ip now now2 (some k) s).2 = s ∧
    (verify_license cfg (some cfg) req ip now now2 (some k) s).2.users = s.users ∧
    (verify_license cfg (some cfg) req ip now now2 (some k) s).2.licenses = s.licenses ∧
    (verify_license cfg (some cfg) req ip now now2 (some k) s).2.user_licenses =
      s.user_licenses ∧
    (verify_license cfg (some cfg) req ip now now2 (some k) s).2.device_activations =
      s.device_activations ∧
    (verify_license cfg (some cfg) req ip now now2 (some k) s).2.license_activity =
      s.license_activity := by
  have hcond : (req.license_key.getD "" == "" || req.user_id.getD "" == "") = false := by
    simp [hlk, huid]
  refine ⟨?_, ?_, ?_, ?_, ?_, ?_, ?_, ?_⟩ <;>
    simp [verify_license, hcond, txnRollback, VerifyResult.httpCode]

/-- Witness for `verify_license_storage_error_rollback`: a failure at the
fourth statement of an otherwise well-formed request leaves the state as it
was. -/
theorem verify_license_storage_error_rollback_witness :
    (verify_license "K" (some "K") ⟨some "LIC-1", some "u1", []⟩ "1.2.3.4"
        100 100 (some 3) emptyDB).1 =
      VerifyResult.err 500 "Database error occurred" ∧
    (verify_license "K" (some "K") ⟨some "LIC-1", some "u1", []⟩ "1.2.3.4"
        100 100 (some 3) emptyDB).1.httpCode = 500 ∧
    (verify_license "K" (some "K") ⟨some "LIC-1", some "u1", []⟩ "1.2.3.4"
        100 100 (some 3) emptyDB).2 = emptyDB ∧
    (verify_license "K" (some "K") ⟨some "LIC-1", some "u1", []⟩ "1.2.3.4"
        100 100 (some 3) emptyDB).2.users = emptyDB.users ∧
    (verify_license "K" (some "K") ⟨some "LIC-1", some "u1", []⟩ "1.2.3.4"
        100 100 (some 3) emptyDB).2.licenses = emptyDB.licenses ∧
    (verify_license "K" (some "K") ⟨some "LIC-1", some "u1", []⟩ "1.2.3.4"
        100 100 (some 3) emptyDB).2.user_licenses = emptyDB.user_licenses ∧
    (verify_license "K" (some "K") ⟨some "LIC-1", some "u1", []⟩ "1.2.3.4"
        100 100 (some 3) emptyDB).2.device_activations = emptyDB.device_activations ∧
    (verify_license "K" (some "K") ⟨some "LIC-1", some "u1", []⟩ "1.2.3.4"
        100 100 (some 3) emptyDB).2.license_activity = emptyDB.license_activity :=
  verify_license_storage_error_rollback "K" ⟨some "LIC-1", some "u1", []⟩
    "1.2.3.4" 100 100 3 emptyDB (by decide) (by decide)

/-- C2 (code evaluated at the failing input) — Reading a license's stats
never succeeds: the handler's first query addresses the `license_stats`
relation, which `init_db` does not create, so with a correct API key and
any license key and state the endpoint returns the 500 error body instead
of stats reflecting the ledger. -/
theorem get_license_stats_always_errors (cfg key : String) (s : DBState) :
    get_license_stats cfg (some cfg) init_db_tables key s =
      Except.error (500, "relation license_stats does not exist") := by
  unfold get_license_stats
  rw [if_neg (by simp)]
  rfl

/-- Appended ledger row of a committed validation transaction: the activity
relation grows by exactly the one row carrying the literals `validation`
and `success`, the request ip, the serialized device info, and the
transaction clock. -/
theorem validationTxn_activity (lk uid did dname dj ip : String)
    (now now2 : Int) (s : DBState) :
    ∃ lid udb,
      (validationTxn lk uid did dname dj ip now now2 s).2.license_activity =
        s.license_activity ++ [⟨lid, udb, "validation", "success", ip, dj, now⟩] := by
  refine ⟨(upsertLicense lk "active" "premium" (now + 30 * 86400)
            (upsertUser uid s).2).1.id, (upsertUser uid s).1, ?_⟩
  simp only [validationTxn, txnCommit, logActivity]
  rw [(registerDevice_frame _ _ _ _ _ _).2.2.2,
      (linkUserLicense_frame _ _ _).2.2.2,
      (upsertLicense_frame _ _ _ _ _).2.2.2,
      (upsertUser_frame _ _).2.2.2]

/-- Reduction of the validation endpoint to its transaction on the
success path (matching header, both required fields present, no storage
error). -/
theorem verify_license_success_eq (cfg : String) (req : VerifyRequest)
    (ip : String) (now now2 : Int) (s : DBState)
    (hcond : (req.license_key.getD "" == "" || req.user_id.getD "" == "") = false) :
    verify_license cfg (some cfg) req ip now now2 none s =
      validationTxn (req.license_key.getD "") (req.user_id.getD "")
        (dictGetD req.device_info "device_id" "")
        (dictGetD req.device_info "device_name" "")
        (json_dumps req.device_info) ip now now2 s := by
  simp [verify_license, hcond]

/-- C10 — The activity ledger only ever holds rows with `action =
validation` and `status = success`: the property is preserved by every
possible invocation of the validation endpoint (the only writer), and
whenever the response is a `valid: False` body the ledger — like the rest
of the state — is exactly the pre-request one, so failed attempts leave no
ledger trace. -/
theorem ledger_rows_validation_success (cfg : String) (hk : Option String)
    (req : VerifyRequest) (ip : String) (now now2 : Int) (failAt : Option Nat)
    (s : DBState) (hs : LedgerOK s) :
    LedgerOK (verify_license cfg hk req ip now now2 failAt s).2 ∧
    ((verify_license cfg hk req ip now now2 failAt s).1.valid = false →
      (verify_license cfg hk req ip now now2 failAt s).2.license_activity =
        s.license_activity) := by
  by_cases hauth : hk = some cfg
  · subst hauth
    by_cases hcond : (req.license_key.getD "" == "" || req.user_id.getD "" == "") = true
    · have he : verify_license cfg (some cfg) req ip now now2 failAt s =
          (.err 400 "License key and user ID are required", s) := by
        simp [verify_license, hcond]
      rw [he]
      exact ⟨hs, fun _ => rfl⟩
    · rw [Bool.not_eq_true] at hcond
      cases failAt with
      | some k =>
          have he : verify_license cfg (some cfg) req ip now now2 (some k) s =
              (.err 500 "Database error occurred", s) := by
            simp [verify_license, hcond, txnRollback]
          rw [he]
          exact ⟨hs, fun _ => rfl⟩
      | none =>
          rw [verify_license_success_eq cfg req ip now now2 s hcond]
          obtain ⟨lid, udb, heq⟩ := validationTxn_activity
            (req.license_key.getD "") (req.user_id.getD "")
            (dictGetD req.device_info "device_id" "")
            (dictGetD req.device_info "device_name" "")
            (json_dumps req.device_info) ip now now2 s
          constructor
          · intro a ha
            rw [heq, List.mem_append] at ha
            rcases ha with ha | ha
            · exact hs a ha
            · rw [List.mem_singleton] at ha
              subst ha
              exact ⟨rfl, rfl⟩
          · intro hv
            exact absurd hv (by simp [validationTxn, VerifyResult.valid])
  · have he : verify_license cfg hk req ip now now2 failAt s =
        (.err 401 "Unauthorized", s) := by
      simp [verify_license, hauth]
    rw [he]
    exact ⟨hs, fun _ => rfl⟩

/-- Witness for `ledger_rows_validation_success`: one committed validation
on the empty database keeps the all-rows-are-validation-success invariant,
and its 200 response makes the error-branch implication hold vacuously. -/
theorem ledger_rows_validation_success_witness :
    LedgerOK (verify_license "K" (some "K") ⟨some "LIC-1", some "u1", []⟩
        "1.2.3.4" 100 100 none emptyDB).2 ∧
    ((verify_license "K" (some "K") ⟨some "LIC-1", some "u1", []⟩
        "1.2.3.4" 100 100 none emptyDB).1.valid = false →
      (verify_license "K" (some "K") ⟨some "LIC-1", some "u1", []⟩
        "1.2.3.4" 100 100 none emptyDB).2.license_activity =
        emptyDB.license_activity) :=
  ledger_rows_validation_success "K" (some "K") ⟨some "LIC-1", some "u1", []⟩
    "1.2.3.4" 100 100 none emptyDB (by intro a ha; simp [emptyDB] at ha)

/-- C1 (counterexample) — The stored license `LIC-1` has `status =
expired` and `expires_at = 0`, lying strictly before the request clock
`1000000`; the claimed verdict rule demands `valid: false`, yet the
endpoint answers `valid: true` (it first overwrites the record via the
upsert). -/
theorem verify_license_expired_still_valid :
    (∃ r ∈ expiredState.licenses,
        r.license_key = "LIC-1" ∧ r.status = "expired" ∧ r.expires_at < 1000000) ∧
    (verify_license "K" (some "K") ⟨some "LIC-1", some "u1", []⟩ "9.9.9.9"
        1000000 1000000 none expiredState).1.valid = true := by
  constructor
  · exact ⟨⟨1, "LIC-1", "expired", "premium", 0, 1⟩, by decide, rfl, rfl, by decide⟩
  · rfl

/-- Response and post-state of a committed validation transaction: the body
is a success body whose type/status/expiry are the constants the upsert
just wrote, and the resulting state stores a license row for the key with
exactly those constants. -/
theorem validationTxn_response (lk uid did dname dj ip : String)
    (now now2 : Int) (s : DBState) :
    (validationTxn lk uid did dname dj ip now now2 s).1.valid = true ∧
    (validationTxn lk uid did dname dj ip now now2 s).1.type_field = some "premium" ∧
    (validationTxn lk uid did dname dj ip now now2 s).1.status_field = some "active" ∧
    (validationTxn lk uid did dname dj ip now now2 s).1.expires_field =
      some (now + 30 * 86400) ∧
    (validationTxn lk uid did dname dj ip now now2 s).1.days_field =
      some (Int.fdiv (now + 30 * 86400 - now2) 86400) ∧
    (∃ r ∈ (validationTxn lk uid did dname dj ip now now2 s).2.licenses,
        r.license_key = lk ∧ r.status = "active" ∧ r.type = "premium" ∧
        r.expires_at = now + 30 * 86400) := by
  obtain ⟨hk, hst, hty, he⟩ :=
    upsertLicense_ret lk "active" "premium" (now + 30 * 86400) (upsertUser uid s).2
  refine ⟨rfl, ?_, ?_, ?_, ?_, ?_⟩
  · simp only [validationTxn, VerifyResult.type_field]
    rw [hty]
  · simp only [validationTxn, VerifyResult.status_field]
    rw [hst]
  · simp only [validationTxn, VerifyResult.expires_field]
    rw [he]
  · simp only [validationTxn, VerifyResult.days_field]
    rw [he]
  · refine ⟨(upsertLicense lk "active" "premium" (now + 30 * 86400)
        (upsertUser uid s).2).1, ?_, hk, hst, hty, he⟩
    simp only [validationTxn, txnCommit]
    rw [(logActivity_frame _ _ _ _ _ _ _ _).2.1,
        (registerDevice_frame _ _ _ _ _ _).2.1,
        (linkUserLicense_frame _ _ _).2.1]
    exact List.mem_of_find?_eq_some (upsertLicense_find?_post _ _ _ _ _)

/-- C9 — A well-formed authenticated validation that commits always
overwrites the stored license to the hardcoded values `status = active`,
`type = premium`, `expires_at = now + 30 days`, independent of what was
stored before, and the success body reports those values with
`days_remaining` at most 30 (the two clock reads satisfy `now ≤ now2`). -/
theorem validation_revives_license (cfg : String) (req : VerifyRequest)
    (ip : String) (now now2 : Int) (s : DBState)
    (hlk : req.license_key.getD "" ≠ "") (huid : req.user_id.getD "" ≠ "")
    (hnow : now ≤ now2) :
    (verify_license cfg (some cfg) req ip now now2 none s).1.valid = true ∧
    (verify_license cfg (some cfg) req ip now now2 none s).1.type_field =
      some "premium" ∧
    (verify_license cfg (some cfg) req ip now now2 none s).1.status_field =
      some "active" ∧
    (verify_license cfg (some cfg) req ip now now2 none s).1.expires_field =
      some (now + 30 * 86400) ∧
    (verify_license cfg (some cfg) req ip now now2 none s).1.days_field =
      some (Int.fdiv (now + 30 * 86400 - now2) 86400) ∧
    Int.fdiv (now + 30 * 86400 - now2) 86400 ≤ 30 ∧
    (∃ r ∈ (verify_license cfg (some cfg) req ip now now2 none s).2.licenses,
        r.license_key = req.license_key.getD "" ∧ r.status = "active" ∧
        r.type = "premium" ∧ r.expires_at = now + 30 * 86400) := by
  have hcond : (req.license_key.getD "" == "" || req.user_id.getD "" == "") = false := by
    simp [hlk, huid]
  rw [verify_license_success_eq cfg req ip now now2 s hcond]
  obtain ⟨h1, h2, h3, h4, h5, h6⟩ := validationTxn_response
    (req.license_key.getD "") (req.user_id.getD "")
    (dictGetD req.device_info "device_id" "")
    (dictGetD req.device_info "device_name" "")
    (json_dumps req.device_info) ip now now2 s
  refine ⟨h1, h2, h3, h4, h5, ?_, h6⟩
  have hb : now + 30 * 86400 - now2 ≤ 30 * 86400 := by omega
  calc Int.fdiv (now + 30 * 86400 - now2) 86400
      = (now + 30 * 86400 - now2) / 86400 := Int.fdiv_eq_ediv _ (by norm_num)
    _ ≤ (30 * 86400 : Int) / 86400 := Int.ediv_le_ediv (by norm_num) hb
    _ = 30 := by norm_num

/-- Witness for `validation_revives_license`: a validation against the
stored expired license revives it to active/premium with a fresh expiry. -/
theorem validation_revives_license_witness :
    (verify_license "K" (some "K") ⟨some "LIC-1", some "u1", []⟩ "9.9.9.9"
        1000000 1000020 none expiredState).1.valid = true ∧
    (verify_license "K" (some "K") ⟨some "LIC-1", some "u1", []⟩ "9.9.9.9"
        1000000 1000020 none expiredState).1.type_field = some "premium" ∧
    (verify_license "K" (some "K") ⟨some "LIC-1", some "u1", []⟩ "9.9.9.9"
        1000000 1000020 none expiredState).1.status_field = some "active" ∧
    (verify_license "K" (some "K") ⟨some "LIC-1", some "u1", []⟩ "9.9.9.9"
        1000000 1000020 none expiredState).1.expires_field =
      some (1000000 + 30 * 86400) ∧
    (verify_license "K" (some "K") ⟨some "LIC-1", some "u1", []⟩ "9.9.9.9"
        1000000 1000020 none expiredState).1.days_field =
      some (Int.fdiv (1000000 + 30 * 86400 - 1000020) 86400) ∧
    Int.fdiv (1000000 + 30 * 86400 - 1000020) 86400 ≤ 30 ∧
    (∃ r ∈ (verify_license "K" (some "K") ⟨some "LIC-1", some "u1", []⟩ "9.9.9.9"
        1000000 1000020 none expiredState).2.licenses,
        r.license_key = (some "LIC-1" : Option String).getD "" ∧
        r.status = "active" ∧ r.type = "premium" ∧
        r.expires_at = 1000000 + 30 * 86400) :=
  validation_revives_license "K" ⟨some "LIC-1", some "u1", []⟩ "9.9.9.9"
    1000000 1000020 expiredState (by decide) (by decide) (by norm_num)

/-- C1 (amended) — The verdict is not computed from the stored record:
every authenticated request carrying a non-empty `license_key` and
`user_id` whose transaction commits yields `valid: true`, because the
handler first upserts the license to `status = active` with a future
expiry, making the three conditions (existence, active status, unexpired)
hold of the post-state record regardless of its prior values. -/
theorem verify_license_always_valid (cfg : String) (req : VerifyRequest)
    (ip : String) (now now2 : Int) (s : DBState)
    (hlk : req.license_key.getD "" ≠ "") (huid : req.user_id.getD "" ≠ "") :
    (verify_license cfg (some cfg) req ip now now2 none s).1.valid = true ∧
    (∃ r ∈ (verify_license cfg (some cfg) req ip now now2 none s).2.licenses,
        r.license_key = req.license_key.getD "" ∧ r.status = "active" ∧
        now < r.expires_at) := by
  have hcond : (req.license_key.getD "" == "" || req.user_id.getD "" == "") = false := by
    simp [hlk, huid]
  rw [verify_license_success_eq cfg req ip now now2 s hcond]
  obtain ⟨h1, _, _, _, _, r, hmem, hkey, hst, _, hexp⟩ := validationTxn_response
    (req.license_key.getD "") (req.user_id.getD "")
    (dictGetD req.device_info "device_id" "")
    (dictGetD req.device_info "device_name" "")
    (json_dumps req.device_info) ip now now2 s
  exact ⟨h1, r, hmem, hkey, hst, by rw [hexp]; omega⟩

/-- Witness for `verify_license_always_valid` on the empty database. -/
theorem verify_license_always_valid_witness :
    (verify_license "K" (some "K") ⟨some "LIC-1", some "u1", []⟩ "1.2.3.4"
        100 100 none emptyDB).1.valid = true ∧
    (∃ r ∈ (verify_license "K" (some "K") ⟨some "LIC-1", some "u1", []⟩ "1.2.3.4"
        100 100 none emptyDB).2.licenses,
        r.license_key = (some "LIC-1" : Option String).getD "" ∧
        r.status = "active" ∧ (100 : Int) < r.expires_at) :=
  verify_license_always_valid "K" ⟨some "LIC-1", some "u1", []⟩ "1.2.3.4"
    100 100 emptyDB (by decide) (by decide)

/-- The device-registration statement only rewrites the
`device_activations` relation, by `deviceUpsertList`. -/
theorem registerDevice_devices (lid uid : Nat) (did dname : String) (now : Int)
    (s : DBState) :
    (registerDevice lid uid did dname now s).device_activations =
      deviceUpsertList lid uid did dname now s.device_activations := by
  unfold registerDevice deviceUpsertList
  by_cases h : (did == "") = true
  · simp [h]
  · by_cases h2 : (s.device_activations.any
        (fun r => r.license_id == lid && r.device_id == did)) = true
    · simp [h, h2]
    · simp [h, h2]

/-- Device relation of a committed validation transaction: the device
upsert applied to the pre-state relation, keyed by the id the license
upsert resolved. -/
theorem validationTxn_devices (lk uid did dname dj ip : String)
    (now now2 : Int) (s : DBState) :
    (validationTxn lk uid did dname dj ip now now2 s).2.device_activations =
      deviceUpsertList
        (upsertLicense lk "active" "premium" (now + 30 * 86400)
          (upsertUser uid s).2).1.id
        (upsertUser uid s).1 did dname now s.device_activations := by
  simp only [validationTxn, txnCommit]
  rw [(logActivity_frame _ _ _ _ _ _ _ _).2.2.2, registerDevice_devices,
      (linkUserLicense_frame _ _ _).2.2.1, (upsertLicense_frame _ _ _ _ _).2.2.1,
      (upsertUser_frame _ _).2.2.1]

/-- When the (license, device) pair already has a row, the device upsert
takes the `DO UPDATE` branch: a pure in-place map, no insertion. -/
theorem deviceUpsertList_existing (lid uid : Nat) (did dname : String)
    (now : Int) (l : List DeviceActivationRow)
    (hdid : (did == "") = false)
    (hex : ∃ r ∈ l, (r.license_id == lid && r.device_id == did) = true) :
    deviceUpsertList lid uid did dname now l =
      l.map (fun r =>
        if r.license_id == lid && r.device_id == did then
          { r with last_active := now, is_active := true }
        else r) := by
  unfold deviceUpsertList
  rw [if_neg (by simp [hdid]), if_pos (List.any_eq_true.mpr hex)]

/-- The `DO UPDATE` branch preserves every row's (license_id, device_id)
key. -/
theorem deviceUpsert_keys (lid : Nat) (did : String) (now : Int)
    (l : List DeviceActivationRow) :
    (l.map (fun r =>
        if r.license_id == lid && r.device_id == did then
          { r with last_active := now, is_active := true }
        else r)).map (fun r => (r.license_id, r.device_id)) =
      l.map (fun r => (r.license_id, r.device_id)) := by
  rw [List.map_map]
  refine List.map_congr_left ?_
  intro r _
  by_cases h : (r.license_id == lid && r.device_id == did) = true
  · simp [Function.comp, h]
  · simp [Function.comp, h]

/-- Under the `UNIQUE(license_id, device_id)` invariant the active-device
count of a license never exceeds (in fact equals) the number of distinct
active device ids for it. -/
theorem active_le_distinct (lid : Nat) (s : DBState) (h : DeviceUnique s) :
    active_devices lid s ≤ distinct_active_device_ids lid s := by
  unfold active_devices distinct_active_device_ids
  have hsub : ((s.device_activations.filter
      (fun r => r.license_id == lid && r.is_active)).map
        (fun r => (r.license_id, r.device_id))).Sublist (deviceKeys s) :=
    List.Sublist.map _ (List.filter_sublist _)
  have hkeys : ((s.device_activations.filter
      (fun r => r.license_id == lid && r.is_active)).map
        (fun r => (r.license_id, r.device_id))).Nodup :=
    List.Nodup.sublist hsub h
  have hfst : ∀ q ∈ (s.device_activations.filter
      (fun r => r.license_id == lid && r.is_active)).map
        (fun r => (r.license_id, r.device_id)), q.1 = lid := by
    intro q hq
    rw [List.mem_map] at hq
    obtain ⟨r, hr, rfl⟩ := hq
    have hp := (List.mem_filter.mp hr).2
    simp only [Bool.and_eq_true, beq_iff_eq] at hp
    exact hp.1
  have hdid : ((s.device_activations.filter
      (fun r => r.license_id == lid && r.is_active)).map
        (fun r => r.device_id)).Nodup := by
    have h2 : (s.device_activations.filter
        (fun r => r.license_id == lid && r.is_active)).map
          (fun r => r.device_id) =
        ((s.device_activations.filter
          (fun r => r.license_id == lid && r.is_active)).map
            (fun r => (r.license_id, r.device_id))).map Prod.snd := by
      rw [List.map_map]
      rfl
    rw [h2]
    refine List.Nodup.map_on ?_ hkeys
    intro x hx y hy hxy
    have hx1 := hfst x hx
    have hy1 := hfst y hy
    exact Prod.ext (hx1.trans hy1.symm) hxy
  rw [List.dedup_eq_self.mpr hdid, List.length_map]

/-- C3 — Re-validating with a device id that already has an active
`device_activations` row for the resolved license takes the upsert's
`DO UPDATE` branch: the relation keeps its length (no duplicate row), the
row's `last_active` becomes the current clock with `is_active = true`, the
active-device count is unchanged (never increased), the
`UNIQUE(license_id, device_id)` invariant is preserved, and the reported
`active_devices` — the count the endpoint derives — never exceeds the
number of distinct active device ids for that license. -/
theorem device_reactivation_no_duplicate (cfg : String) (req : VerifyRequest)
    (ip : String) (now now2 : Int) (s : DBState) (lid : Nat)
    (hlk : req.license_key.getD "" ≠ "") (huid : req.user_id.getD "" ≠ "")
    (hql : DeviceUnique s)
    (hid : licenseIdOf (req.license_key.getD "") s = some lid)
    (hdid : (dictGetD req.device_info "device_id" "" == "") = false)
    (hex : ∃ r ∈ s.device_activations,
        (r.license_id == lid &&
         r.device_id == dictGetD req.device_info "device_id" "") = true)
    (hact : ∀ r ∈ s.device_activations,
        (r.license_id == lid &&
         r.device_id == dictGetD req.device_info "device_id" "") = true →
        r.is_active = true) :
    (verify_license cfg (some cfg) req ip now now2 none s).2.device_activations.length =
      s.device_activations.length ∧
    (∃ r ∈ (verify_license cfg (some cfg) req ip now now2 none s).2.device_activations,
        r.license_id = lid ∧
        r.device_id = dictGetD req.device_info "device_id" "" ∧
        r.last_active = now ∧ r.is_active = true) ∧
    active_devices lid (verify_license cfg (some cfg) req ip now now2 none s).2 =
      active_devices lid s ∧
    DeviceUnique (verify_license cfg (some cfg) req ip now now2 none s).2 ∧
    (verify_license cfg (some cfg) req ip now now2 none s).1.devices_field =
      some (active_devices lid
        (verify_license cfg (some cfg) req ip now now2 none s).2) ∧
    active_devices lid (verify_license cfg (some cfg) req ip now now2 none s).2 ≤
      distinct_active_device_ids lid
        (verify_license cfg (some cfg) req ip now now2 none s).2 := by
  have hcond : (req.license_key.getD "" == "" || req.user_id.getD "" == "") = false := by
    simp [hlk, huid]
  rw [verify_license_success_eq cfg req ip now now2 s hcond]
  obtain ⟨r0, hfind0⟩ : ∃ r0, s.licenses.find?
      (fun r => r.license_key == req.license_key.getD "") = some r0 := by
    unfold licenseIdOf at hid
    cases hf : s.licenses.find? (fun r => r.license_key == req.license_key.getD "") with
    | none => rw [hf] at hid; cases hid
    | some r0 => exact ⟨r0, rfl⟩
  have hr0 : r0.id = lid := by
    unfold licenseIdOf at hid
    rw [hfind0] at hid
    simpa using hid
  have hlid : (upsertLicense (req.license_key.getD "") "active" "premium"
      (now + 30 * 86400) (upsertUser (req.user_id.getD "") s).2).1.id = lid := by
    have h' : (upsertUser (req.user_id.getD "") s).2.licenses.find?
        (fun r => r.license_key == req.license_key.getD "") = some r0 := by
      rw [(upsertUser_frame _ _).1]
      exact hfind0
    rw [upsertLicense_existing_id _ _ _ _ _ _ h', hr0]
  have hdevfull : (validationTxn (req.license_key.getD "") (req.user_id.getD "")
      (dictGetD req.device_info "device_id" "")
      (dictGetD req.device_info "device_name" "")
      (json_dumps req.device_info) ip now now2 s).2.device_activations =
      s.device_activations.map (fun r =>
        if r.license_id == lid &&
           r.device_id == dictGetD req.device_info "device_id" "" then
          { r with last_active := now, is_active := true }
        else r) := by
    rw [validationTxn_devices, hlid, deviceUpsertList_existing _ _ _ _ _ _ hdid hex]
  have h1 : (validationTxn (req.license_key.getD "") (req.user_id.getD "")
      (dictGetD req.device_info "device_id" "")
      (dictGetD req.device_info "device_name" "")
      (json_dumps req.device_info) ip now now2 s).2.device_activations.length =
      s.device_activations.length := by
    rw [hdevfull, List.length_map]
  have h2 : ∃ r ∈ (validationTxn (req.license_key.getD "") (req.user_id.getD "")
      (dictGetD req.device_info "device_id" "")
      (dictGetD req.device_info "device_name" "")
      (json_dumps req.device_info) ip now now2 s).2.device_activations,
      r.license_id = lid ∧
      r.device_id = dictGetD req.device_info "device_id" "" ∧
      r.last_active = now ∧ r.is_active = true := by
    obtain ⟨r, hr, hpr⟩ := hex
    have hpr' := hpr
    simp only [Bool.and_eq_true, beq_iff_eq] at hpr'
    refine ⟨{ r with last_active := now, is_active := true }, ?_,
      hpr'.1, hpr'.2, rfl, rfl⟩
    rw [hdevfull]
    exact List.mem_map.mpr ⟨r, hr, by rw [if_pos hpr]⟩
  have h3 : active_devices lid (validationTxn (req.license_key.getD "")
      (req.user_id.getD "") (dictGetD req.device_info "device_id" "")
      (dictGetD req.device_info "device_name" "")
      (json_dumps req.device_info) ip now now2 s).2 = active_devices lid s := by
    unfold active_devices
    rw [hdevfull, List.filter_map, List.length_map]
    congr 1
    refine List.filter_congr ?_
    intro x hx
    by_cases hm : (x.license_id == lid &&
        x.device_id == dictGetD req.device_info "device_id" "") = true
    · have hax := hact x hx hm
      have hm' := hm
      simp only [Bool.and_eq_true, beq_iff_eq] at hm'
      simp [Function.comp, hm'.1, hm'.2, hax]
    · simp [Function.comp, hm]
  have h4 : DeviceUnique (validationTxn (req.license_key.getD "")
      (req.user_id.getD "") (dictGetD req.device_info "device_id" "")
      (dictGetD req.device_info "device_name" "")
      (json_dumps req.device_info) ip now now2 s).2 := by
    unfold DeviceUnique deviceKeys
    rw [hdevfull, deviceUpsert_keys]
    exact hql
  have h5 : (validationTxn (req.license_key.getD "") (req.user_id.getD "")
      (dictGetD req.device_info "device_id" "")
      (dictGetD req.device_info "device_name" "")
      (json_dumps req.device_info) ip now now2 s).1.devices_field =
      some (active_devices lid (validationTxn (req.license_key.getD "")
        (req.user_id.getD "") (dictGetD req.device_info "device_id" "")
        (dictGetD req.device_info "device_name" "")
        (json_dumps req.device_info) ip now now2 s).2) := by
    simp only [validationTxn, txnCommit, VerifyResult.devices_field]
    rw [hlid]
  exact ⟨h1, h2, h3, h4, h5, active_le_distinct lid _ h4⟩

/-- Witness for `device_reactivation_no_duplicate`: re-validating device
`dev1` of `LIC-1` against the state that already holds its activation
row. -/
theorem device_reactivation_no_duplicate_witness :
    (verify_license "K" (some "K")
        ⟨some "LIC-1", some "u1", [("device_id", "dev1"), ("device_name", "PC")]⟩
        "5.6.7.8" 200 200 none oneDeviceState).2.device_activations.length =
      oneDeviceState.device_activations.length ∧
    (∃ r ∈ (verify_license "K" (some "K")
        ⟨some "LIC-1", some "u1", [("device_id", "dev1"), ("device_name", "PC")]⟩
        "5.6.7.8" 200 200 none oneDeviceState).2.device_activations,
        r.license_id = 1 ∧
        r.device_id = dictGetD [("device_id", "dev1"), ("device_name", "PC")]
          "device_id" "" ∧
        r.last_active = 200 ∧ r.is_active = true) ∧
    active_devices 1 (verify_license "K" (some "K")
        ⟨some "LIC-1", some "u1", [("device_id", "dev1"), ("device_name", "PC")]⟩
        "5.6.7.8" 200 200 none oneDeviceState).2 =
      active_devices 1 oneDeviceState ∧
    DeviceUnique (verify_license "K" (some "K")
        ⟨some "LIC-1", some "u1", [("device_id", "dev1"), ("device_name", "PC")]⟩
        "5.6.7.8" 200 200 none oneDeviceState).2 ∧
    (verify_license "K" (some "K")
        ⟨some "LIC-1", some "u1", [("device_id", "dev1"), ("device_name", "PC")]⟩
        "5.6.7.8" 200 200 none oneDeviceState).1.devices_field =
      some (active_devices 1 (verify_license "K" (some "K")
        ⟨some "LIC-1", some "u1", [("device_id", "dev1"), ("device_name", "PC")]⟩
        "5.6.7.8" 200 200 none oneDeviceState).2) ∧
    active_devices 1 (verify_license "K" (some "K")
        ⟨some "LIC-1", some "u1", [("device_id", "dev1"), ("device_name", "PC")]⟩
        "5.6.7.8" 200 200 none oneDeviceState).2 ≤
      distinct_active_device_ids 1 (verify_license "K" (some "K")
        ⟨some "LIC-1", some "u1", [("device_id", "dev1"), ("device_name", "PC")]⟩
        "5.6.7.8" 200 200 none oneDeviceState).2 :=
  device_reactivation_no_duplicate "K"
    ⟨some "LIC-1", some "u1", [("device_id", "dev1"), ("device_name", "PC")]⟩
    "5.6.7.8" 200 200 oneDeviceState 1 (by decide) (by decide)
    (by unfold DeviceUnique; decide)
    (by decide) (by decide) (by decide) (by decide)

/-- Licenses relation of a committed validation transaction: the license
upsert's output (the later statements leave it untouched). -/
theorem validationTxn_licenses (lk uid did dname dj ip : String)
    (now now2 : Int) (s : DBState) :
    (validationTxn lk uid did dname dj ip now now2 s).2.licenses =
      (upsertLicense lk "active" "premium" (now + 30 * 86400)
        (upsertUser uid s).2).2.licenses := by
  simp only [validationTxn, txnCommit]
  rw [(logActivity_frame _ _ _ _ _ _ _ _).2.1,
      (registerDevice_frame _ _ _ _ _ _).2.1,
      (linkUserLicense_frame _ _ _).2.1]

/-- Users relation of a committed validation transaction: the user
upsert's output (the later statements leave it untouched). -/
theorem validationTxn_users (lk uid did dname dj ip : String)
    (now now2 : Int) (s : DBState) :
    (validationTxn lk uid did dname dj ip now now2 s).2.users =
      (upsertUser uid s).2.users := by
  simp only [validationTxn, txnCommit]
  rw [(logActivity_frame _ _ _ _ _ _ _ _).1,
      (registerDevice_frame _ _ _ _ _ _).1,
      (linkUserLicense_frame _ _ _).1,
      (upsertLicense_frame _ _ _ _ _).1]

/-- Ledger relation of a committed validation transaction, with the
appended row written out. -/
theorem validationTxn_activity_explicit (lk uid did dname dj ip : String)
    (now now2 : Int) (s : DBState) :
    (validationTxn lk uid did dname dj ip now now2 s).2.license_activity =
      s.license_activity ++
        [⟨(upsertLicense lk "active" "premium" (now + 30 * 86400)
             (upsertUser uid s).2).1.id, (upsertUser uid s).1,
          "validation", "success", ip, dj, now⟩] := by
  simp only [validationTxn, txnCommit, logActivity]
  rw [(registerDevice_frame _ _ _ _ _ _).2.2.2,
      (linkUserLicense_frame _ _ _).2.2.2,
      (upsertLicense_frame _ _ _ _ _).2.2.2,
      (upsertUser_frame _ _).2.2.2]

/-- Unfolding equation of `insertDesc` on a non-empty list. -/
theorem insertDesc_cons (x y : ActivityView) (ys : List ActivityView) :
    insertDesc x (y :: ys) =
      if y.created_at ≤ x.created_at then x :: y :: ys
      else y :: insertDesc x ys := rfl

/-- Members of `insertDesc x l` are `x` or members of `l`. -/
theorem mem_insertDesc (x b : ActivityView) (l : List ActivityView)
    (h : b ∈ insertDesc x l) : b = x ∨ b ∈ l := by
  induction l with
  | nil => simpa [insertDesc] using h
  | cons y ys ih =>
      rw [insertDesc_cons] at h
      by_cases hc : y.created_at ≤ x.created_at
      · rw [if_pos hc] at h
        rcases List.mem_cons.mp h with h1 | h1
        · exact Or.inl h1
        · exact Or.inr h1
      · rw [if_neg hc] at h
        rcases List.mem_cons.mp h with h1 | h1
        · exact Or.inr (List.mem_cons.mpr (Or.inl h1))
        · rcases ih h1 with h2 | h2
          · exact Or.inl h2
          · exact Or.inr (List.mem_cons.mpr (Or.inr h2))

/-- Inserting into a descending list keeps it descending. -/
theorem pairwise_insertDesc (x : ActivityView) (l : List ActivityView)
    (h : l.Pairwise (fun a b => b.created_at ≤ a.created_at)) :
    (insertDesc x l).Pairwise (fun a b => b.created_at ≤ a.created_at) := by
  induction l with
  | nil => simp [insertDesc]
  | cons y ys ih =>
      rw [List.pairwise_cons] at h
      rw [insertDesc_cons]
      by_cases hc : y.created_at ≤ x.created_at
      · rw [if_pos hc]
        refine List.Pairwise.cons ?_ (List.Pairwise.cons h.1 h.2)
        intro b hb
        rcases List.mem_cons.mp hb with rfl | hb2
        · exact hc
        · exact le_trans (h.1 b hb2) hc
      · rw [if_neg hc]
        refine List.Pairwise.cons ?_ (ih h.2)
        intro b hb
        rcases mem_insertDesc x b ys hb with rfl | hb2
        · exact le_of_lt (lt_of_not_le hc)
        · exact h.1 b hb2

/-- The activity sort produces a list ordered most recent first. -/
theorem sortDesc_pairwise (l : List ActivityView) :
    (sortDesc l).Pairwise (fun a b => b.created_at ≤ a.created_at) := by
  unfold sortDesc
  induction l with
  | nil => simp
  | cons a t ih => exact pairwise_insertDesc a _ ih

/-- Sorting after appending a strictly newest element puts that element at
the head. -/
theorem sortDesc_append_newest (l : List ActivityView) (x : ActivityView)
    (h : ∀ b ∈ l, b.created_at < x.created_at) :
    sortDesc (l ++ [x]) = x :: sortDesc l := by
  unfold sortDesc
  induction l with
  | nil => rfl
  | cons a t ih =>
      rw [List.cons_append, List.foldr_cons, List.foldr_cons,
          ih (fun b hb => h b (List.mem_cons_of_mem a hb)), insertDesc_cons,
          if_neg (not_le_of_lt (h a (List.mem_cons_self a t)))]

/-- The join preserves the `created_at` of the ledger row. -/
theorem joinRow_created_at (key : String) (s : DBState) (a : ActivityRow)
    (v : ActivityView) (h : joinRow key s a = some v) :
    v.created_at = a.created_at := by
  unfold joinRow at h
  cases h1 : s.licenses.find? (fun l => l.id == a.license_id && l.license_key == key) with
  | none => rw [h1] at h; cases h
  | some lr =>
      cases h2 : s.users.find? (fun u => u.id == a.user_id) with
      | none => rw [h1, h2] at h; cases h
      | some u =>
          rw [h1, h2] at h
          simp only [Option.some.injEq] at h
          rw [← h]

/-- The ledger row a committed validation appends joins successfully
against the post-state `licenses` and `users` relations, yielding a view
row with the appended action, status, ip, device info and clock. -/
theorem validationTxn_joins_new_row (lk uid did dname dj ip : String)
    (now now2 : Int) (s : DBState) :
    ∃ uname, joinRow lk (validationTxn lk uid did dname dj ip now now2 s).2
        ⟨(upsertLicense lk "active" "premium" (now + 30 * 86400)
            (upsertUser uid s).2).1.id, (upsertUser uid s).1,
         "validation", "success", ip, dj, now⟩ =
      some ⟨now, "validation", "success", ip, dj, uname⟩ := by
  have hk := (upsertLicense_ret lk "active" "premium" (now + 30 * 86400)
    (upsertUser uid s).2).1
  have hmem := List.mem_of_find?_eq_some (upsertLicense_find?_post lk "active"
    "premium" (now + 30 * 86400) (upsertUser uid s).2)
  have hLs : ((validationTxn lk uid did dname dj ip now now2 s).2.licenses.find?
      (fun l => l.id == (upsertLicense lk "active" "premium" (now + 30 * 86400)
        (upsertUser uid s).2).1.id && l.license_key == lk)).isSome := by
    rw [validationTxn_licenses, List.find?_isSome]
    exact ⟨_, hmem, by simpa using hk⟩
  have hUs : ((validationTxn lk uid did dname dj ip now now2 s).2.users.find?
      (fun u => u.id == (upsertUser uid s).1)).isSome := by
    rw [validationTxn_users, List.find?_isSome]
    obtain ⟨r, hr, hrid, _⟩ := upsertUser_post uid s
    exact ⟨r, hr, by simp [hrid]⟩
  obtain ⟨lr, hlr⟩ := Option.isSome_iff_exists.mp hLs
  obtain ⟨ur, hur⟩ := Option.isSome_iff_exists.mp hUs
  refine ⟨ur.user_id, ?_⟩
  unfold joinRow
  dsimp only
  rw [hlr, hur]

/-- C7 — The activity record appended by a committed validation is
retrievable through the activity-read endpoint on the post state: it is the
head of the returned list (the list is ordered most recent first, within
the LIMIT 50 window) and carries identical action, status, ip address and
device info.  The pre-state ledger rows are strictly older than the
request clock. -/
theorem validation_activity_roundtrip (cfg : String) (req : VerifyRequest)
    (ip : String) (now now2 : Int) (s : DBState)
    (hlk : req.license_key.getD "" ≠ "") (huid : req.user_id.getD "" ≠ "")
    (hfresh : ∀ a ∈ s.license_activity, a.created_at < now) :
    ∃ v rest,
      get_license_activity cfg (some cfg) req.license_key
        (verify_license cfg (some cfg) req ip now now2 none s).2 =
        Except.ok (v :: rest) ∧
      v.action = "validation" ∧ v.status = "success" ∧ v.ip_address = ip ∧
      v.device_info = json_dumps req.device_info ∧ v.created_at = now ∧
      (v :: rest).Pairwise (fun a b => b.created_at ≤ a.created_at) := by
  have hcond : (req.license_key.getD "" == "" || req.user_id.getD "" == "") = false := by
    simp [hlk, huid]
  rw [verify_license_success_eq cfg req ip now now2 s hcond]
  obtain ⟨uname, hjoin⟩ := validationTxn_joins_new_row (req.license_key.getD "")
    (req.user_id.getD "") (dictGetD req.device_info "device_id" "")
    (dictGetD req.device_info "device_name" "") (json_dumps req.device_info)
    ip now now2 s
  have hga : get_license_activity cfg (some cfg) req.license_key
      (validationTxn (req.license_key.getD "") (req.user_id.getD "")
        (dictGetD req.device_info "device_id" "")
        (dictGetD req.device_info "device_name" "")
        (json_dumps req.device_info) ip now now2 s).2 =
      Except.ok ((sortDesc (activityJoin (req.license_key.getD "")
        (validationTxn (req.license_key.getD "") (req.user_id.getD "")
          (dictGetD req.device_info "device_id" "")
          (dictGetD req.device_info "device_name" "")
          (json_dumps req.device_info) ip now now2 s).2)).take 50) := by
    unfold get_license_activity
    rw [if_neg (by simp), if_neg (by simp [hlk])]
  have hAJ : activityJoin (req.license_key.getD "")
      (validationTxn (req.license_key.getD "") (req.user_id.getD "")
        (dictGetD req.device_info "device_id" "")
        (dictGetD req.device_info "device_name" "")
        (json_dumps req.device_info) ip now now2 s).2 =
      (s.license_activity.filterMap (joinRow (req.license_key.getD "")
        (validationTxn (req.license_key.getD "") (req.user_id.getD "")
          (dictGetD req.device_info "device_id" "")
          (dictGetD req.device_info "device_name" "")
          (json_dumps req.device_info) ip now now2 s).2)) ++
        [⟨now, "validation", "success", ip, json_dumps req.device_info, uname⟩] := by
    unfold activityJoin
    rw [validationTxn_activity_explicit, List.filterMap_append]
    congr 1
    simp only [List.filterMap_cons, hjoin, List.filterMap_nil]
  have hfresh' : ∀ b ∈ s.license_activity.filterMap
      (joinRow (req.license_key.getD "")
        (validationTxn (req.license_key.getD "") (req.user_id.getD "")
          (dictGetD req.device_info "device_id" "")
          (dictGetD req.device_info "device_name" "")
          (json_dumps req.device_info) ip now now2 s).2),
      b.created_at < now := by
    intro b hb
    rw [List.mem_filterMap] at hb
    obtain ⟨a, ha, hba⟩ := hb
    rw [joinRow_created_at _ _ _ _ hba]
    exact hfresh a ha
  have hsort : sortDesc (activityJoin (req.license_key.getD "")
      (validationTxn (req.license_key.getD "") (req.user_id.getD "")
        (dictGetD req.device_info "device_id" "")
        (dictGetD req.device_info "device_name" "")
        (json_dumps req.device_info) ip now now2 s).2) =
      ⟨now, "validation", "success", ip, json_dumps req.device_info, uname⟩ ::
      sortDesc (s.license_activity.filterMap (joinRow (req.license_key.getD "")
        (validationTxn (req.license_key.getD "") (req.user_id.getD "")
          (dictGetD req.device_info "device_id" "")
          (dictGetD req.device_info "device_name" "")
          (json_dumps req.device_info) ip now now2 s).2)) := by
    rw [hAJ]
    exact sortDesc_append_newest _ _ hfresh'
  refine ⟨⟨now, "validation", "success", ip, json_dumps req.device_info, uname⟩,
    (sortDesc (s.license_activity.filterMap (joinRow (req.license_key.getD "")
      (validationTxn (req.license_key.getD "") (req.user_id.getD "")
        (dictGetD req.device_info "device_id" "")
        (dictGetD req.device_info "device_name" "")
        (json_dumps req.device_info) ip now now2 s).2))).take 49,
    ?_, rfl, rfl, rfl, rfl, rfl, ?_⟩
  · rw [hga, hsort, show (50 : Nat) = 49 + 1 from rfl, List.take_succ_cons]
  · have hp := sortDesc_pairwise (activityJoin (req.license_key.getD "")
      (validationTxn (req.license_key.getD "") (req.user_id.getD "")
        (dictGetD req.device_info "device_id" "")
        (dictGetD req.device_info "device_name" "")
        (json_dumps req.device_info) ip now now2 s).2)
    rw [hsort] at hp
    have hp2 := List.Pairwise.sublist (List.take_sublist 50 _) hp
    rw [show (50 : Nat) = 49 + 1 from rfl, List.take_succ_cons] at hp2
    exact hp2

/-- Witness for `validation_activity_roundtrip`: a validation on the empty
database is read back at the head of the activity list. -/
theorem validation_activity_roundtrip_witness :
    ∃ v rest,
      get_license_activity "K" (some "K") (some "LIC-1" : Option String)
        (verify_license "K" (some "K") ⟨some "LIC-1", some "u1", []⟩
          "1.2.3.4" 100 100 none emptyDB).2 =
        Except.ok (v :: rest) ∧
      v.action = "validation" ∧ v.status = "success" ∧ v.ip_address = "1.2.3.4" ∧
      v.device_info = json_dumps [] ∧ v.created_at = 100 ∧
      (v :: rest).Pairwise (fun a b => b.created_at ≤ a.created_at) :=
  validation_activity_roundtrip "K" ⟨some "LIC-1", some "u1", []⟩
    "1.2.3.4" 100 100 emptyDB (by decide) (by decide)
    (by intro a ha; simp [emptyDB] at ha)
